import Mathlib

/-!
Shallow embedding of `src/packages/discount-code-exporter/src/cli.js`.

Modelling conventions:

* The settlement of a JavaScript promise is `Option (Except JsError α)`:
  `none` means the promise never settles, `some (Except.error e)` means it was
  rejected with `e`, and `some (Except.ok a)` means it was fulfilled with `a`.
* The template read stream handed to `getFields` is abstracted as the finite
  list of readline events it delivers: each event is either a produced line or
  a stream error.  The end of the list corresponds to the stream ending
  (readline emitting `close`, for which `getFields` installs no handler).
* The file system is abstracted as a predicate `String → Bool` saying which
  paths exist (`fs.existsSync`).
* Write streams are identified by their destination: `process.stdout` or the
  path handed to `fs.createWriteStream`.
-/

namespace DiscountCodeExporterCli

/-- A JavaScript error value, abstracted to its message. -/
structure JsError where
  message : String
deriving DecidableEq, Repr

/-- One event delivered by the readline interface over the template stream:
either a line of text or a stream error. -/
inductive TemplateEvent where
  | line (s : String)
  | streamError (e : JsError)
deriving DecidableEq, Repr

/-- JavaScript `String.prototype.split` on a list of characters, with a fuel
argument that makes the recursion structural.  When the separator matches at
the current position, the accumulated field is emitted and the matched
characters are skipped; otherwise the current character is accumulated.  The
fuel only needs to exceed the length of the input, since every step consumes
at least one character. -/
def jsSplitAux (sep : List Char) : Nat → List Char → List Char → List (List Char)
  | _, [], acc => [acc.reverse]
  | 0, cs, acc => [acc.reverse ++ cs]
  | fuel + 1, c :: cs, acc =>
    if sep.isPrefixOf (c :: cs) then
      acc.reverse :: jsSplitAux sep fuel (List.drop (sep.length - 1) cs) []
    else jsSplitAux sep fuel cs (c :: acc)

/-- JavaScript `s.split(sep)` for a string separator, as used at
`line.split(_args.delimiter)` in cli.js line 127.  The empty separator splits
the string into its individual characters, as JavaScript does. -/
def jsSplit (s sep : String) : List String :=
  if sep = "" then s.data.map (fun c => String.mk [c])
  else (jsSplitAux sep.data (s.data.length + 1) s.data []).map String.mk

/-- cli.js lines 117-130, `getFields`.  The first argument is the coerced
`template` option: `none` when no template was given, otherwise the list of
readline events the template stream delivers.  The second argument is the
configured delimiter.

The promise resolves with `null` (here `Option.none`) when no template is
given.  Otherwise the first delivered event decides the outcome: a first line
resolves with that line split on the delimiter (the interface is closed, so
later events are irrelevant), a stream error before any line rejects with it.
No handler is installed for the end of the stream, so a stream that ends
having delivered no event leaves the promise unsettled (outer `none`). -/
def getFields :
    Option (List TemplateEvent) → String → Option (Except JsError (Option (List String)))
  | none, _ => some (Except.ok none)
  | some events, delimiter =>
    match events with
    | [] => none
    | TemplateEvent.line s :: _ => some (Except.ok (some (jsSplit s delimiter)))
    | TemplateEvent.streamError e :: _ => some (Except.error e)

/-- The credentials value produced by the promise chain.  The object literal
`{}` returned at cli.js line 133 carries no token, modelled as
`token := none`. -/
structure Credentials where
  token : Option String := none
deriving DecidableEq, Repr

/-- How `resolveCredentials` resolves: either an immediately resolved
credentials object, or a delegation to the external collaborator
`getCredentials` keyed by the project key. -/
inductive CredResolution where
  | resolved (c : Credentials)
  | exchange (projectKey : String)
deriving DecidableEq, Repr

/-- JavaScript truthiness of an optional string option: present and
non-empty. -/
def isTruthy : Option String → Bool
  | none => false
  | some s => s != ""

/-- cli.js lines 132-135, `resolveCredentials`: when `_args.accessToken` is
truthy the function returns `Promise.resolve({})` — an empty object, not one
carrying the token — and otherwise it returns
`getCredentials(_args.projectKey)`. -/
def resolveCredentials (accessToken : Option String) (projectKey : String) : CredResolution :=
  if isTruthy accessToken then CredResolution.resolved {}
  else CredResolution.exchange projectKey

/-- Credential resolution as spec section 4.1 words it: the returned
credentials value wraps the supplied token.  Stated only for comparison with
`resolveCredentials`, which is what the code does. -/
def resolveCredentialsSpecVersion (accessToken : Option String) (projectKey : String) :
    CredResolution :=
  if isTruthy accessToken then CredResolution.resolved { token := accessToken }
  else CredResolution.exchange projectKey

/-- The raw command-line options before yargs coercion, validation and
defaulting.  `none` means the option was not supplied.  The field `whereArg`
stands for the option named `where`, which is a reserved word here. -/
structure RawArgs where
  template : Option String := none
  language : Option String := none
  output : Option String := none
  apiUrl : Option String := none
  authUrl : Option String := none
  delimiter : Option String := none
  multiValueDelimiter : Option String := none
  accessToken : Option String := none
  projectKey : Option String := none
  whereArg : Option String := none
  exportFormat : Option String := none
  batchSize : Option Int := none
  logLevel : Option String := none
  logFile : Option String := none
deriving DecidableEq, Repr

/-- A write destination: `process.stdout` or a file stream created with
`fs.createWriteStream` on the given path. -/
inductive Sink where
  | stdout
  | fileStream (path : String)
deriving DecidableEq, Repr

/-- The configuration after yargs processing, as consumed by the rest of
cli.js.  `template` holds the path underlying the read stream the coercion
created, when a template was supplied. -/
structure ParsedArgs where
  template : Option String
  language : String
  output : Sink
  apiUrl : String
  authUrl : String
  delimiter : String
  multiValueDelimiter : String
  accessToken : Option String
  projectKey : String
  whereArg : Option String
  exportFormat : String
  batchSize : Int
  logLevel : String
  logFile : String
deriving DecidableEq, Repr

/-- The error thrown by the `template` coercion at cli.js line 33. -/
def templateCoerceError : JsError :=
  { message := "Input file cannot be reached or does not exist" }

/-- cli.js lines 30-34: the `template` coercion runs only when the option was
supplied; it yields a read stream over the path when `fs.existsSync` holds
and throws otherwise. -/
def coerceTemplate (fs : String → Bool) :
    Option String → Except JsError (Option String)
  | none => Except.ok none
  | some p => if fs p then Except.ok (some p) else Except.error templateCoerceError

/-- cli.js lines 35-44: the `output` option defaults to the string `stdout`,
which is coerced to `process.stdout`; any other value is coerced to a write
stream on that path. -/
def coerceOutput (output : Option String) : Sink :=
  let s := output.getD "stdout"
  if s = "stdout" then Sink.stdout else Sink.fileStream s

/-- cli.js lines 75-80: the values admitted by the `choices` list of the
`exportFormat` option. -/
def validFormat (s : String) : Bool :=
  s == "csv" || s == "json"

/-- The yargs processing of cli.js lines 13-96: coercions, the `demand` on
`projectKey`, the `choices` check on `exportFormat`, and the declared
defaults.  No other validation is present; in particular `batchSize` is
passed through unchecked.  (The `logLevel` coercion only sets the npmlog
level; the value is kept here unchanged.) -/
def parseArgs (fs : String → Bool) (raw : RawArgs) : Except JsError ParsedArgs :=
  match coerceTemplate fs raw.template with
  | Except.error e => Except.error e
  | Except.ok tmpl =>
    match raw.projectKey with
    | none => Except.error { message := "Missing required argument: projectKey" }
    | some pk =>
      if validFormat (raw.exportFormat.getD "json") then
        Except.ok
          { template := tmpl
            language := raw.language.getD "en"
            output := coerceOutput raw.output
            apiUrl := raw.apiUrl.getD "https://api.europe-west1.gcp.commercetools.com"
            authUrl := raw.authUrl.getD "https://auth.europe-west1.gcp.commercetools.com"
            delimiter := raw.delimiter.getD ","
            multiValueDelimiter := raw.multiValueDelimiter.getD ";"
            accessToken := raw.accessToken
            projectKey := pk
            whereArg := raw.whereArg
            exportFormat := raw.exportFormat.getD "json"
            batchSize := raw.batchSize.getD 500
            logLevel := raw.logLevel.getD "info"
            logFile := raw.logFile.getD "discount-code-export.log" }
      else Except.error { message := "Invalid values for exportFormat" }

/-- cli.js lines 137-140: when the data output is `process.stdout`, npmlog is
redirected to a write stream on the log file; otherwise npmlog writes to
`process.stdout`. -/
def logStream (output : Sink) (logFile : String) : Sink :=
  if output = Sink.stdout then Sink.fileStream logFile else Sink.stdout

/-- The argument of one `errorHandler` call (cli.js lines 108-113): either a
single error or an array of errors. -/
inductive HandledErrors where
  | single (e : JsError)
  | multiple (es : List JsError)
deriving DecidableEq, Repr

/-- The `logError` invocations one `errorHandler` call performs: arrays are
reported element by element, anything else once. -/
def loggedErrors : HandledErrors → List JsError
  | HandledErrors.single e => [e]
  | HandledErrors.multiple es => es

/-- The settlements of the stages of the promise chain at cli.js lines
145-173.  `cred` and `fields` are the eventual settlements of
`resolveCredentials(args)` and `getFields(args)`; `constructResult` is the
outcome of `new DiscountCodeExport(...)` (which may throw); `runResult` is
the settlement of `discountCodeExport.run(args.output)`.  Rejection values of
the latter two may be arrays, which `errorHandler` reports element-wise. -/
structure ExportStages where
  cred : Option (Except JsError Credentials)
  fields : Option (Except JsError (Option (List String)))
  constructResult : Except HandledErrors Unit
  runResult : Option (Except HandledErrors Unit)

/-- `Promise.all` over two promises: it rejects as soon as either constituent
rejects, fulfills once both fulfill, and otherwise stays pending.  (When both
constituents reject, JavaScript adopts whichever rejection settles first;
this atemporal model adopts the first component, and no theorem below depends
on which rejection is adopted.) -/
def promiseAll2 {α β : Type} :
    Option (Except JsError α) → Option (Except JsError β) → Option (Except JsError (α × β))
  | some (Except.error e), _ => some (Except.error e)
  | _, some (Except.error e) => some (Except.error e)
  | some (Except.ok a), some (Except.ok b) => some (Except.ok (a, b))
  | _, _ => none

/-- The observable outcome of the promise chain: the final `process.exitCode`
(0 unless `errorHandler` set it to 1), the list of `errorHandler`
invocations in order, and whether the export was started (the
`DiscountCodeExport` construction, and on success its run, were reached). -/
structure RunState where
  exitCode : Nat
  handlerCalls : List HandledErrors
  exportStarted : Bool
deriving DecidableEq, Repr

/-- cli.js lines 145-173: `Promise.all([resolveCredentials(args),
getFields(args)])`, then construction of the export, then its run, with a
single trailing `.catch(errorHandler)`.  A rejection anywhere is handled by
exactly one `errorHandler` call; a chain that never settles reaches neither
the export nor the handler. -/
def runChain (st : ExportStages) : RunState :=
  match promiseAll2 st.cred st.fields with
  | none => { exitCode := 0, handlerCalls := [], exportStarted := false }
  | some (Except.error e) =>
      { exitCode := 1, handlerCalls := [HandledErrors.single e], exportStarted := false }
  | some (Except.ok _) =>
      match st.constructResult with
      | Except.error errs =>
          { exitCode := 1, handlerCalls := [errs], exportStarted := true }
      | Except.ok _ =>
          match st.runResult with
          | none => { exitCode := 0, handlerCalls := [], exportStarted := true }
          | some (Except.error errs) =>
              { exitCode := 1, handlerCalls := [errs], exportStarted := true }
          | some (Except.ok _) =>
              { exitCode := 0, handlerCalls := [], exportStarted := true }

/-- The first fatal error the chain of cli.js lines 145-173 encounters, if
any: a rejection of the pre-flight `Promise.all`, a throwing constructor, or
a rejected run. -/
def firstChainError (st : ExportStages) : Option HandledErrors :=
  match promiseAll2 st.cred st.fields with
  | none => none
  | some (Except.error e) => some (HandledErrors.single e)
  | some (Except.ok _) =>
      match st.constructResult with
      | Except.error errs => some errs
      | Except.ok _ =>
          match st.runResult with
          | some (Except.error errs) => some errs
          | _ => none

/-- The outcome of one whole invocation of cli.js: either yargs processing
failed (the module never reaches lines 137-173, so neither credential
resolution nor any export work starts), or the parsed configuration together
with the outcome of the promise chain. -/
inductive CliOutcome where
  | argFailure (e : JsError)
  | pipeline (cfg : ParsedArgs) (st : RunState)
deriving DecidableEq, Repr

/-- One whole invocation of cli.js: yargs processing first (line 96), and
only on its success the promise chain of lines 145-173.  `stagesOf` supplies
the stage settlements (credential exchange, template stream, export
behaviour) for a given configuration. -/
def cliMain (fs : String → Bool) (raw : RawArgs) (stagesOf : ParsedArgs → ExportStages) :
    CliOutcome :=
  match parseArgs fs raw with
  | Except.error e => CliOutcome.argFailure e
  | Except.ok cfg => CliOutcome.pipeline cfg (runChain (stagesOf cfg))

/-- Whether the invocation reached the export stage (the construction of
`DiscountCodeExport`). -/
def CliOutcome.startedExport : CliOutcome → Bool
  | CliOutcome.argFailure _ => false
  | CliOutcome.pipeline _ st => st.exportStarted

/-- The configuration parsed from an invocation supplying only `projectKey`:
every other option takes its declared default. -/
def defaultParsed : ParsedArgs :=
  { template := none
    language := "en"
    output := Sink.stdout
    apiUrl := "https://api.europe-west1.gcp.commercetools.com"
    authUrl := "https://auth.europe-west1.gcp.commercetools.com"
    delimiter := ","
    multiValueDelimiter := ";"
    accessToken := none
    projectKey := "my-project"
    whereArg := none
    exportFormat := "json"
    batchSize := 500
    logLevel := "info"
    logFile := "discount-code-export.log" }

/-- The configuration parsed from an invocation supplying `projectKey` and
`batchSize 7`; used to instantiate theorems at a concrete input. -/
def sampleParsed : ParsedArgs :=
  { defaultParsed with batchSize := 7 }

/-- Export stages in which every stage succeeds; used to instantiate theorems
at a concrete input. -/
def allOkStages : ExportStages :=
  { cred := some (Except.ok {})
    fields := some (Except.ok none)
    constructResult := Except.ok ()
    runResult := some (Except.ok ()) }

/-- Destructs a successful yargs processing: the template coercion succeeded,
`projectKey` was supplied, the export format passed the `choices` check, and
the configuration is exactly the record built from the coerced values and the
declared defaults. -/
theorem parseArgs_ok_shape (fs : String → Bool) (raw : RawArgs) (cfg : ParsedArgs)
    (h : parseArgs fs raw = Except.ok cfg) :
    ∃ tmpl pk, coerceTemplate fs raw.template = Except.ok tmpl ∧
      raw.projectKey = some pk ∧
      validFormat (raw.exportFormat.getD "json") = true ∧
      cfg =
        { template := tmpl
          language := raw.language.getD "en"
          output := coerceOutput raw.output
          apiUrl := raw.apiUrl.getD "https://api.europe-west1.gcp.commercetools.com"
          authUrl := raw.authUrl.getD "https://auth.europe-west1.gcp.commercetools.com"
          delimiter := raw.delimiter.getD ","
          multiValueDelimiter := raw.multiValueDelimiter.getD ";"
          accessToken := raw.accessToken
          projectKey := pk
          whereArg := raw.whereArg
          exportFormat := raw.exportFormat.getD "json"
          batchSize := raw.batchSize.getD 500
          logLevel := raw.logLevel.getD "info"
          logFile := raw.logFile.getD "discount-code-export.log" } := by
  unfold parseArgs at h
  split at h
  next e heq => exact absurd h (by simp)
  next tmpl heq =>
    split at h
    next hpk => exact absurd h (by simp)
    next pk hpk =>
      split at h
      next hfmt =>
        refine ⟨tmpl, pk, heq, hpk, hfmt, ?_⟩
        injection h with h
        exact h.symm
      next hfmt => exact absurd h (by simp)

/-- Claim C1, counterexample: a template stream that ends having produced
zero lines does not make `getFields` fail with any error — the promise never
settles (result `none`), so the resolution neither terminates with a field
list nor with an error. -/
theorem getFields_empty_template_no_settlement :
    getFields (some []) "," = none := rfl

/-- Claim C1 (amended): if the template stream emits an error before any line
is produced, `getFields` rejects with that error; if the stream ends having
produced zero lines, `getFields` never settles — no `TemplateEmptyError` is
produced and the resolution does not terminate. -/
theorem getFields_error_and_empty_stream (d : String) :
    (∀ (e : JsError) (rest : List TemplateEvent),
        getFields (some (TemplateEvent.streamError e :: rest)) d = some (Except.error e)) ∧
    getFields (some []) d = none :=
  ⟨fun _ _ => rfl, rfl⟩

/-- Claim C2, counterexample: with an access token supplied, the credentials
value resolved by `resolveCredentials` is the empty object, not one wrapping
the token. -/
theorem resolveCredentials_does_not_wrap_token :
    resolveCredentials (some "accessToken123") "my-project" ≠
      CredResolution.resolved { token := some "accessToken123" } := by
  decide

/-- Claim C2 (amended): when a (non-empty) access token is supplied,
credential resolution is synchronous and returns the empty credentials
object — it does not wrap the token, which cli.js passes to the export
constructor separately — and the exchange collaborator `getCredentials` is
never invoked; when no access token is supplied, resolution delegates to the
exchange keyed by `projectKey`. -/
theorem resolveCredentials_cases (accessToken : Option String) (projectKey : String) :
    (isTruthy accessToken = true →
        resolveCredentials accessToken projectKey = CredResolution.resolved {}) ∧
    (isTruthy accessToken = false →
        resolveCredentials accessToken projectKey = CredResolution.exchange projectKey) := by
  constructor
  · intro h
    simp [resolveCredentials, h]
  · intro h
    simp [resolveCredentials, h]

/-- Witness for claim C2: the amended statement instantiated at a concrete
supplied token and at an absent token. -/
theorem resolveCredentials_cases_witness :
    resolveCredentials (some "accessToken123") "my-project" = CredResolution.resolved {} ∧
    resolveCredentials none "my-project" = CredResolution.exchange "my-project" :=
  ⟨(resolveCredentials_cases (some "accessToken123") "my-project").1 (by decide),
   (resolveCredentials_cases none "my-project").2 (by decide)⟩

/-- Claim C3: when the first event the template stream delivers is a line
`L`, `getFields` resolves with exactly `L` split on the configured delimiter,
whatever events follow (no later line is consumed); in particular a template
whose first line is `id,name,code` with delimiter `,` yields
`["id", "name", "code"]` regardless of later lines. -/
theorem getFields_first_line_only (L d : String) (rest : List TemplateEvent) :
    getFields (some (TemplateEvent.line L :: rest)) d =
      some (Except.ok (some (jsSplit L d))) ∧
    getFields (some (TemplateEvent.line "id,name,code" :: rest)) "," =
      some (Except.ok (some ["id", "name", "code"])) :=
  ⟨rfl, rfl⟩

/-- Claim C4: the export (the `DiscountCodeExport` construction, and on its
success the run) is started exactly when both the credential promise and the
field promise fulfilled; the two settlements enter the model as independent
inputs (both promises are created before the `Promise.all` join), and if
either rejects or never settles the export is never started. -/
theorem export_started_iff_both_resolutions_ok (st : ExportStages) :
    (runChain st).exportStarted = true ↔
      (∃ c, st.cred = some (Except.ok c)) ∧ ∃ f, st.fields = some (Except.ok f) := by
  obtain ⟨cred, fields, constructResult, runResult⟩ := st
  rcases cred with _ | ⟨e | c⟩ <;> rcases fields with _ | ⟨e2 | f⟩ <;>
    rcases constructResult with e3 | u <;> rcases runResult with _ | ⟨e4 | u2⟩ <;>
      simp [runChain, promiseAll2]

/-- Claim C5: the chain of cli.js lines 145-173 invokes `errorHandler`
exactly once, with exactly the first fatal error (a single error value or an
array reported element-wise), whenever any stage fails, and never otherwise;
the process exit code is 1 exactly when such an error occurred, so no error
leaves the run reported as successful. -/
theorem chain_error_surfaced_once (st : ExportStages) :
    (runChain st).handlerCalls = (firstChainError st).toList ∧
    ((runChain st).exitCode = 1 ↔ (firstChainError st).isSome = true) ∧
    ((runChain st).exitCode = 0 ↔ firstChainError st = none) := by
  obtain ⟨cred, fields, constructResult, runResult⟩ := st
  rcases cred with _ | ⟨e | c⟩ <;> rcases fields with _ | ⟨e2 | f⟩ <;>
    rcases constructResult with e3 | u <;> rcases runResult with _ | ⟨e4 | u2⟩ <;>
      simp [runChain, firstChainError, promiseAll2]

/-- Claim C6, counterexample: an invocation supplying `batchSize 0` is not
rejected — yargs processing accepts it, the parsed configuration carries
batch size 0, and the export work starts. -/
theorem batchSize_zero_not_rejected :
    (parseArgs (fun _ => true) { projectKey := some "my-project", batchSize := some 0 }).map
        ParsedArgs.batchSize = Except.ok 0 ∧
    (cliMain (fun _ => true) { projectKey := some "my-project", batchSize := some 0 }
        (fun _ => allOkStages)).startedExport = true :=
  ⟨rfl, rfl⟩

/-- Claim C6 (amended): no validation of the batch size is performed — every
accepted configuration carries the supplied batch size unchanged (500 when
none was supplied), including values less than or equal to 0. -/
theorem parseArgs_batchSize_passthrough (fs : String → Bool) (raw : RawArgs)
    (cfg : ParsedArgs) (h : parseArgs fs raw = Except.ok cfg) :
    cfg.batchSize = raw.batchSize.getD 500 := by
  obtain ⟨tmpl, pk, heq, hpk, hfmt, rfl⟩ := parseArgs_ok_shape fs raw cfg h
  rfl

/-- Witness for claim C6: the amended statement instantiated at an invocation
supplying `batchSize 7`. -/
theorem parseArgs_batchSize_passthrough_witness :
    sampleParsed.batchSize =
      (({ projectKey := some "my-project", batchSize := some 7 } : RawArgs)).batchSize.getD
        500 :=
  parseArgs_batchSize_passthrough (fun _ => true)
    { projectKey := some "my-project", batchSize := some 7 } sampleParsed rfl

/-- Claim C7: options not supplied take their declared defaults —
`batchSize` 500, `delimiter` a comma, `multiValueDelimiter` a semicolon,
`exportFormat` json, `language` en — and every accepted configuration has
export format csv or json. -/
theorem parseArgs_defaults_and_format_choices (fs : String → Bool) (raw : RawArgs)
    (cfg : ParsedArgs) (h : parseArgs fs raw = Except.ok cfg) :
    (raw.batchSize = none → cfg.batchSize = 500) ∧
    (raw.delimiter = none → cfg.delimiter = ",") ∧
    (raw.multiValueDelimiter = none → cfg.multiValueDelimiter = ";") ∧
    (raw.exportFormat = none → cfg.exportFormat = "json") ∧
    (raw.language = none → cfg.language = "en") ∧
    (cfg.exportFormat = "csv" ∨ cfg.exportFormat = "json") := by
  obtain ⟨tmpl, pk, heq, hpk, hfmt, rfl⟩ := parseArgs_ok_shape fs raw cfg h
  refine ⟨fun hb => by simp [hb], fun hd => by simp [hd], fun hm => by simp [hm],
    fun hf => by simp [hf], fun hl => by simp [hl], ?_⟩
  simpa [validFormat] using hfmt

/-- Witness for claim C7: the statement instantiated at an invocation
supplying only `projectKey`, whose parsed configuration is `defaultParsed`. -/
theorem parseArgs_defaults_witness :
    defaultParsed.batchSize = 500 ∧ defaultParsed.delimiter = "," ∧
    defaultParsed.multiValueDelimiter = ";" ∧ defaultParsed.exportFormat = "json" ∧
    defaultParsed.language = "en" := by
  obtain ⟨h1, h2, h3, h4, h5, _⟩ :=
    parseArgs_defaults_and_format_choices (fun _ => true) { projectKey := some "my-project" }
      defaultParsed rfl
  exact ⟨h1 rfl, h2 rfl, h3 rfl, h4 rfl, h5 rfl⟩

/-- Claim C8: when no template is provided, `getFields` resolves with `null`
(the absent field spec), for every configured delimiter. -/
theorem getFields_without_template_resolves_null (d : String) :
    getFields none d = some (Except.ok none) := rfl

/-- Claim C9: the npmlog stream and the data output sink are always distinct:
when the data output is `process.stdout` the logs go to the configured log
file, and when the data output is a file the logs go to `process.stdout`; in
particular the log stream never equals the data sink. -/
theorem log_and_data_sinks_distinct (output : Sink) (logFile : String) :
    logStream Sink.stdout logFile = Sink.fileStream logFile ∧
    (∀ p, logStream (Sink.fileStream p) logFile = Sink.stdout) ∧
    logStream output logFile ≠ output := by
  refine ⟨rfl, fun p => rfl, ?_⟩
  cases output <;> simp [logStream]

/-- Claim C10: when the `template` option names a path the file system check
rejects, the whole invocation fails during argument coercion with the error
`Input file cannot be reached or does not exist` — neither credential
resolution nor any export work starts; when the path exists, the accepted
configuration carries a read stream over exactly that path. -/
theorem template_coercion_gates_run (fs : String → Bool) (raw : RawArgs) (p : String)
    (stagesOf : ParsedArgs → ExportStages) (hp : raw.template = some p) :
    (fs p = false → cliMain fs raw stagesOf = CliOutcome.argFailure templateCoerceError) ∧
    (fs p = true → ∀ cfg st, cliMain fs raw stagesOf = CliOutcome.pipeline cfg st →
        cfg.template = some p) := by
  constructor
  · intro hfs
    unfold cliMain parseArgs
    simp [hp, coerceTemplate, hfs]
  · intro hfs cfg st hmain
    unfold cliMain at hmain
    rcases hpa : parseArgs fs raw with e | cfg0
    · rw [hpa] at hmain
      exact absurd hmain (by simp)
    · rw [hpa] at hmain
      injection hmain with h1 h2
      subst h1
      obtain ⟨tmpl, pk, heq, hpk, hfmt, rfl⟩ := parseArgs_ok_shape fs raw cfg0 hpa
      rw [hp] at heq
      simp [coerceTemplate, hfs] at heq
      simpa using heq.symm

/-- Witness for claim C10: the statement instantiated at a file system on
which no path exists and an invocation supplying a template path. -/
theorem template_coercion_gates_run_witness :
    cliMain (fun _ => false)
        { template := some "template.csv", projectKey := some "my-project" }
        (fun _ => allOkStages) = CliOutcome.argFailure templateCoerceError :=
  (template_coercion_gates_run (fun _ => false)
    { template := some "template.csv", projectKey := some "my-project" } "template.csv"
    (fun _ => allOkStages) rfl).1 rfl

end DiscountCodeExporterCli
